import Mathlib

/-
Verification of the CloudMart resource-tagging dashboard (src/script.py).

The core computations of the script are pure pandas operations over a table of
cloud resources.  We embed them shallowly:

* a row of the table is a `Resource`; every categorical column is
  `Option String` (pandas NaN = `none`) and the cost column is
  `Option ℚ` (`to_numeric(..., errors="coerce")` turns unparsable
  values into NaN = `none`);
* a dataframe is a `List Resource` in source row order;
* pandas `sum()` over a column skips NaN, so null costs contribute 0;
* pandas `groupby(key)` (default `dropna=True`) drops rows whose key is
  NaN, and `value_counts()` (default `dropna=True`) likewise drops NaN
  values.  `groupby` additionally sorts group keys; none of the
  properties proved below depend on group order, so groups are listed
  in first-appearance order here;
* `Series.idxmax()` on an empty series raises `ValueError`; code that
  calls it unguarded is embedded with `Except`, the error value
  standing for the raised exception.
-/

structure Resource where
  ResourceID : Option String
  Service : Option String
  Department : Option String
  Project : Option String
  Owner : Option String
  CostCenter : Option String
  CreatedBy : Option String
  Region : Option String
  Environment : Option String
  Tagged : Option String
  MonthlyCostUSD : Option ℚ
deriving DecidableEq

/-- Contribution of one row to a pandas cost sum: NaN cost contributes 0. -/
def costOf (r : Resource) : ℚ := r.MonthlyCostUSD.getD 0

/-- `df["MonthlyCostUSD"].sum()` — NaN skipped, i.e. counted as 0. -/
def sumCost (rows : List Resource) : ℚ := (rows.map costOf).sum

/-- `df[df["Tagged"] == "No"]` (script.py lines 62, 77, 135, 243).
In pandas, `NaN == "No"` is `False`, so rows with a missing `Tagged`
value are excluded. -/
def untaggedRows (rows : List Resource) : List Resource :=
  rows.filter (fun r => r.Tagged == some "No")

/-- Lines 62-64: percentage of untagged resources, guarded by
`if total > 0 else 0`. -/
def percent_untagged (rows : List Resource) : ℚ :=
  if 0 < rows.length then
    ((untaggedRows rows).length : ℚ) / (rows.length : ℚ) * 100
  else 0

/-- Line 77: `untagged_cost = df[df["Tagged"] == "No"]["MonthlyCostUSD"].sum()`. -/
def untagged_cost (rows : List Resource) : ℚ := sumCost (untaggedRows rows)

/-- Line 90: `(untagged_cost / total_cost * 100) if total_cost > 0 else 0`. -/
def percent_untagged_cost (rows : List Resource) : ℚ :=
  if 0 < sumCost rows then untagged_cost rows / sumCost rows * 100 else 0

/-- Distinct non-null values of a key column, in first-appearance order
(pandas `groupby` keys; NaN keys dropped, as with `dropna=True`). -/
def keysOf (key : Resource → Option String) (rows : List Resource) : List String :=
  (rows.filterMap key).dedup

/-- `df.groupby(key)["MonthlyCostUSD"].sum()` (lines 85, 94, 104, 164, 170,
176): one (key, sum) pair per distinct non-null key value. -/
def groupSum (key : Resource → Option String) (rows : List Resource) :
    List (String × ℚ) :=
  (keysOf key rows).map (fun k => (k, sumCost (rows.filter (fun r => key r == some k))))

/-- Scan for `Series.idxmax()`: first key attaining the maximum value
(strict `<` keeps the earlier key on ties). -/
def idxmaxAux : List (String × ℚ) → String × ℚ → String
  | [], best => best.1
  | g :: gs, best => if best.2 < g.2 then idxmaxAux gs g else idxmaxAux gs best

/-- Lines 93-101: department with most untagged cost.  The script guards
with `if len(untagged_by_dept) > 0`, showing an informational message
otherwise; `none` models that distinguishable no-entity outcome. -/
def most_untagged_dept (rows : List Resource) : Option String :=
  match groupSum (fun r => r.Department) (untaggedRows rows) with
  | [] => none
  | g :: gs => some (idxmaxAux gs g)

/-- Lines 103-107: project with highest total cost.  `idxmax()` is called
with no emptiness guard, so an empty group series raises `ValueError`. -/
def highest_cost_project (rows : List Resource) : Except String String :=
  match groupSum (fun r => r.Project) rows with
  | [] => Except.error "ValueError: attempt to get argmax of an empty sequence"
  | g :: gs => Except.ok (idxmaxAux gs g)

/-- Line 57: `df["Tagged"].value_counts()` — count per distinct non-null
value; NaN values are dropped (`dropna=True` default).  `value_counts`
also orders the result by descending count; only the mapping content
(which keys, which counts) matters to the claims, so first-appearance
order is used. -/
def value_counts (key : Resource → Option String) (rows : List Resource) :
    List (String × Nat) :=
  (keysOf key rows).map (fun v => (v, rows.countP (fun r => key r == some v)))

/-- Line 120: `tag_fields = ["Department", "Project", "Owner", "CostCenter",
"CreatedBy"]` — the five designated tag columns of a row. -/
def tag_fields (r : Resource) : List (Option String) :=
  [r.Department, r.Project, r.Owner, r.CostCenter, r.CreatedBy]

/-- Line 121: `df[tag_fields].notnull().sum(axis=1)` for one row. -/
def tagScoreFn (r : Resource) : Nat :=
  (tag_fields r).countP (fun v => v.isSome)

/-- A row of a dataframe that carries the derived `TagScore` column
(the state of `df` after line 121, and of `untagged_df`/`editable_df`). -/
structure Scored where
  res : Resource
  tagScore : Nat
deriving DecidableEq

/-- Line 121 applied to the whole table: attach `TagScore` to every row. -/
def scoreAll (rows : List Resource) : List Scored :=
  rows.map (fun r => { res := r, tagScore := tagScoreFn r })

/-- Line 135: `untagged_df = df[df["Tagged"] == "No"].copy()`, taken after
the `TagScore` column was added, so the carried score travels with the row. -/
def untagged_df (rows : List Resource) : List Scored :=
  (scoreAll rows).filter (fun s => s.res.Tagged == some "No")

/-- Pandas `.isin(allowed)` on a nullable string column: NaN is in no list. -/
def isinOpt (v : Option String) (allowed : List String) : Bool :=
  match v with
  | some s => allowed.contains s
  | none => false

/-- Lines 193-200: each multiselect filter is applied only when its
selection list is non-empty (`if service_filter:` is Python truthiness),
in the order Service, Region, Department. -/
def applyFilters (rows : List Resource) (service region dept : List String) :
    List Resource :=
  let f1 := if service.isEmpty then rows else rows.filter (fun r => isinOpt r.Service service)
  let f2 := if region.isEmpty then f1 else f1.filter (fun r => isinOpt r.Region region)
  if dept.isEmpty then f2 else f2.filter (fun r => isinOpt r.Department dept)

/-- Cost sum over a score-carrying table (`editable_df["MonthlyCostUSD"].sum()`). -/
def sumCostS (l : List Scored) : ℚ := (l.map (fun s => costOf s.res)).sum

/-- `editable_df[editable_df["Tagged"] == "No"]` (lines 247-248). -/
def untaggedS (l : List Scored) : List Scored :=
  l.filter (fun s => s.res.Tagged == some "No")

/-- Line 242: `(df_original["Tagged"] == "No").sum()`. -/
def before_untagged_count (original : List Resource) : Nat :=
  (untaggedRows original).length

/-- Line 243: untagged cost of the original snapshot. -/
def before_untagged_cost (original : List Resource) : ℚ :=
  sumCost (untaggedRows original)

/-- Line 244: before percentage, guarded by `if ... > 0 else 0`. -/
def before_untagged_pct_cost (original : List Resource) : ℚ :=
  if 0 < sumCost original then
    before_untagged_cost original / sumCost original * 100
  else 0

/-- Line 247: `(editable_df["Tagged"] == "No").sum()`. -/
def after_untagged_count (edited : List Scored) : Nat :=
  (untaggedS edited).length

/-- Line 248: untagged cost of the edited subset. -/
def after_untagged_cost (edited : List Scored) : ℚ :=
  sumCostS (untaggedS edited)

/-- Line 249: after percentage over the total cost of the edited subset itself,
guarded by `if ... > 0 else 0`. -/
def after_untagged_pct_cost (edited : List Scored) : ℚ :=
  if 0 < sumCostS edited then
    after_untagged_cost edited / sumCostS edited * 100
  else 0

/-- Line 254: `after_untagged_count - before_untagged_count` (signed). -/
def count_delta (original : List Resource) (edited : List Scored) : ℤ :=
  (after_untagged_count edited : ℤ) - (before_untagged_count original : ℤ)

/-- Line 259: `before_untagged_cost - after_untagged_cost`. -/
def cost_improvement (original : List Resource) (edited : List Scored) : ℚ :=
  before_untagged_cost original - after_untagged_cost edited

/-- Line 264: `before_untagged_pct_cost - after_untagged_pct_cost`. -/
def pct_point_improvement (original : List Resource) (edited : List Scored) : ℚ :=
  before_untagged_pct_cost original - after_untagged_pct_cost edited

/-- The `metrics(subset)` bundle of spec section 4.5: untagged count,
untagged cost, percentage of the subset total cost that is untagged. -/
structure Metrics where
  untagged_count : Nat
  untagged_cost : ℚ
  pct_untagged_cost : ℚ
deriving DecidableEq

/-- `metrics` of a plain table (the "before" side, computed on `df_original`). -/
def metricsOfR (rows : List Resource) : Metrics :=
  { untagged_count := before_untagged_count rows
    untagged_cost := before_untagged_cost rows
    pct_untagged_cost := before_untagged_pct_cost rows }

/-- `metrics` of a score-carrying table (the "after" side, computed on
`editable_df`). -/
def metricsOfS (edited : List Scored) : Metrics :=
  { untagged_count := after_untagged_count edited
    untagged_cost := after_untagged_cost edited
    pct_untagged_cost := after_untagged_pct_cost edited }

/-- One cell edit in the remediation editor (line 211): the user fills in
the Department cell of a row; every other cell of that row, including the
carried `TagScore` column, keeps its value (the script recomputes nothing
on `editable_df`). -/
def editDepartment (v : String) (s : Scored) : Scored :=
  { res := { s.res with Department := some v }, tagScore := s.tagScore }

/-- A row with every column null. -/
def blankResource : Resource :=
  { ResourceID := none, Service := none, Department := none, Project := none
    Owner := none, CostCenter := none, CreatedBy := none, Region := none
    Environment := none, Tagged := none, MonthlyCostUSD := none }

/-- An untagged row with negative cost (nothing in the loader forbids
negative `MonthlyCostUSD` values). -/
def rNeg : Resource :=
  { blankResource with Tagged := some "No", MonthlyCostUSD := some (-10) }

/-- An untagged row with positive cost. -/
def rPos : Resource :=
  { blankResource with Tagged := some "No", MonthlyCostUSD := some 50 }

/-- A costed row whose `Project` key is null. -/
def rNullProj : Resource :=
  { blankResource with MonthlyCostUSD := some 10 }

/-- A row whose `Tagged` value is missing. -/
def rNullTag : Resource := blankResource

/-- An untagged row with all five tag fields null (`TagScore` 0). -/
def rBlankUntagged : Resource :=
  { blankResource with Tagged := some "No" }

/-- A tagged row. -/
def rYes : Resource :=
  { blankResource with Tagged := some "Yes", MonthlyCostUSD := some 20 }

/-- `rNeg` as it appears in an edited subset (score carried along). -/
def sNeg : Scored := { res := rNeg, tagScore := tagScoreFn rNeg }

/-- `rPos` as it appears in an edited subset. -/
def sPos : Scored := { res := rPos, tagScore := tagScoreFn rPos }

/-
Theorems, one per claim of the specification review.
-/

/-- Claim C1, counterexample: the percentage-of-total operation does not
always return numerator/denominator * 100 when the denominator is
non-zero.  On a dataset whose single untagged row costs -10, the total
cost is -10 (non-zero) and the formula gives 100, but the guarded code
returns 0 because the guard tests `> 0`, not `!= 0`. -/
theorem C1_pct_counterexample :
    sumCost [rNeg] ≠ 0 ∧
    percent_untagged_cost [rNeg] ≠ untagged_cost [rNeg] / sumCost [rNeg] * 100 := by
  norm_num [sumCost, costOf, rNeg, blankResource, percent_untagged_cost,
    untagged_cost, untaggedRows]

/-- Claim C1, amended: each percentage-of-total operation (percent of
untagged resources, percent of untagged cost, before/after percent
untagged cost) returns numerator/denominator * 100 when the denominator
is positive, and returns 0 whenever the denominator is 0 or negative —
in particular 0 (not an error, not NaN) whenever the denominator is 0,
including when the numerator is 0. -/
theorem C1_pct_amended (rows : List Resource) (edited : List Scored) :
    (sumCost rows ≤ 0 → percent_untagged_cost rows = 0 ∧ before_untagged_pct_cost rows = 0) ∧
    (0 < sumCost rows → percent_untagged_cost rows = untagged_cost rows / sumCost rows * 100 ∧
      before_untagged_pct_cost rows = before_untagged_cost rows / sumCost rows * 100) ∧
    (rows.length = 0 → percent_untagged rows = 0) ∧
    (0 < rows.length →
      percent_untagged rows = ((untaggedRows rows).length : ℚ) / (rows.length : ℚ) * 100) ∧
    (sumCostS edited ≤ 0 → after_untagged_pct_cost edited = 0) ∧
    (0 < sumCostS edited →
      after_untagged_pct_cost edited = after_untagged_cost edited / sumCostS edited * 100) := by
  refine ⟨fun h => ⟨?_, ?_⟩, fun h => ⟨?_, ?_⟩, fun h => ?_, fun h => ?_, fun h => ?_, fun h => ?_⟩
  · simp [percent_untagged_cost, not_lt.mpr h]
  · simp [before_untagged_pct_cost, not_lt.mpr h]
  · simp [percent_untagged_cost, h]
  · simp [before_untagged_pct_cost, h]
  · simp [percent_untagged, h]
  · simp [percent_untagged, h]
  · simp [after_untagged_pct_cost, not_lt.mpr h]
  · simp [after_untagged_pct_cost, h]

/-- Claim C1, witness: the amended theorem evaluated on concrete datasets —
a negative-total dataset (percentages 0), a positive-total dataset (the
formula), the empty dataset (count percentage 0), and concrete edited
subsets for the after side. -/
theorem C1_pct_amended_witness :
    (percent_untagged_cost [rNeg] = 0 ∧ before_untagged_pct_cost [rNeg] = 0) ∧
    (percent_untagged_cost [rPos] = untagged_cost [rPos] / sumCost [rPos] * 100 ∧
      before_untagged_pct_cost [rPos] = before_untagged_cost [rPos] / sumCost [rPos] * 100) ∧
    percent_untagged ([] : List Resource) = 0 ∧
    percent_untagged [rPos]
      = ((untaggedRows [rPos]).length : ℚ) / (([rPos] : List Resource).length : ℚ) * 100 ∧
    after_untagged_pct_cost [sNeg] = 0 ∧
    after_untagged_pct_cost [sPos] = after_untagged_cost [sPos] / sumCostS [sPos] * 100 :=
  ⟨(C1_pct_amended [rNeg] []).1 (by norm_num [sumCost, costOf, rNeg, blankResource]),
   (C1_pct_amended [rPos] []).2.1 (by norm_num [sumCost, costOf, rPos, blankResource]),
   (C1_pct_amended [] []).2.2.1 rfl,
   (C1_pct_amended [rPos] []).2.2.2.1 (by decide),
   (C1_pct_amended [] [sNeg]).2.2.2.2.1 (by norm_num [sumCostS, costOf, sNeg, rNeg, blankResource]),
   (C1_pct_amended [] [sPos]).2.2.2.2.2 (by norm_num [sumCostS, costOf, sPos, rPos, blankResource])⟩

/-- Claim C2: the remediation comparator computes
`count_delta = after.untagged_count - before.untagged_count`,
`cost_delta = before.untagged_cost - after.untagged_cost`, and
`pct_point_delta = before.pct - after.pct`, and all three after-side
metrics are the metrics bundle of the one edited snapshot (the same
after dataset in all three paired metrics), so the deltas are mutually
consistent. -/
theorem C2_deltas_consistent (original : List Resource) (edited : List Scored) :
    count_delta original edited
      = ((metricsOfS edited).untagged_count : ℤ) - ((metricsOfR original).untagged_count : ℤ) ∧
    cost_improvement original edited
      = (metricsOfR original).untagged_cost - (metricsOfS edited).untagged_cost ∧
    pct_point_improvement original edited
      = (metricsOfR original).pct_untagged_cost - (metricsOfS edited).pct_untagged_cost :=
  ⟨rfl, rfl, rfl⟩

/-- Claim C3: for every resource, the derived TagScore equals the count of
non-null values among the five tag fields (Department, Project, Owner,
CostCenter, CreatedBy), and therefore lies in the range 0..5. -/
theorem C3_tagscore_range (r : Resource) :
    tagScoreFn r = (tag_fields r).countP (fun v => v.isSome) ∧ tagScoreFn r ≤ 5 :=
  ⟨rfl, le_trans (List.countP_le_length _) (by simp [tag_fields])⟩

/-- Claim C4: applyFilters returns exactly the rows whose value, for each
field with a non-empty allowed list, is a member of that list (logical
AND across the three fields); an empty selection imposes no constraint,
and with all selections empty the dataset is returned unchanged. -/
theorem C4_applyFilters_semantics (rows : List Resource) (service region dept : List String) :
    applyFilters rows service region dept =
      rows.filter (fun r =>
        (service.isEmpty || isinOpt r.Service service) &&
        (region.isEmpty || isinOpt r.Region region) &&
        (dept.isEmpty || isinOpt r.Department dept)) ∧
    applyFilters rows [] [] [] = rows := by
  constructor
  · rcases service with _ | ⟨a, as⟩ <;> rcases region with _ | ⟨b, bs⟩ <;>
      rcases dept with _ | ⟨c, cs⟩ <;>
      simp [applyFilters, List.filter_filter] <;>
      (apply List.filter_congr; intro x _;
       simp [Bool.and_comm, Bool.and_assoc, Bool.and_left_comm])
  · simp [applyFilters]

/-- Claim C5, code bug: on a dataset with zero rows the project group sums
are empty and the unguarded `project_cost.idxmax()` of line 105 raises
`ValueError` instead of reporting a distinguishable no-entity result;
the department query of lines 93-101 is guarded and reports the
distinguishable empty outcome. -/
theorem C5_highest_cost_project_raises_on_empty :
    highest_cost_project [] = Except.error "ValueError: attempt to get argmax of an empty sequence" ∧
    most_untagged_dept [] = none :=
  ⟨rfl, rfl⟩

/-- Claim C6, counterexample: partition completeness fails when a row has a
null grouping-key value — pandas `groupby` drops such rows, so on a
dataset whose single row has a null Project and cost 10 the group sums
add to 0 while the dataset total is 10. -/
theorem C6_partition_counterexample :
    ((groupSum (fun r => r.Project) [rNullProj]).map Prod.snd).sum ≠ sumCost [rNullProj] := by
  norm_num [groupSum, keysOf, rNullProj, blankResource, sumCost, costOf]

/-- Helper: summing a rational-valued function over a duplicate-free key
list changes by exactly `c` when the function changes by `c` at one
listed key and is unchanged elsewhere. -/
lemma sum_map_eq_add (v : String) (c : ℚ) :
    ∀ (ks : List String), ks.Nodup → v ∈ ks →
    ∀ f g : String → ℚ, f v = g v + c → (∀ k, k ≠ v → f k = g k) →
    (ks.map f).sum = (ks.map g).sum + c := by
  intro ks
  induction ks with
  | nil => intro _ hv; cases hv
  | cons k ks ih =>
    intro hnd hv f g hfv hne
    rcases List.nodup_cons.mp hnd with ⟨hk, hnd2⟩
    by_cases hkv : k = v
    · subst hkv
      have hmap : ks.map f = ks.map g :=
        List.map_congr_left (fun x hx => hne x (fun hxv => hk (hxv ▸ hx)))
      rw [List.map_cons, List.map_cons, List.sum_cons, List.sum_cons, hmap, hfv]
      ring
    · have hv2 : v ∈ ks := by
        rcases List.mem_cons.mp hv with h | h
        · exact absurd h.symm hkv
        · exact h
      rw [List.map_cons, List.map_cons, List.sum_cons, List.sum_cons, hne k hkv,
        ih hnd2 hv2 f g hfv hne]
      ring

/-- Helper: group sums over any duplicate-free key list covering all
non-null keys of the rows add up to the cost of the rows with a
non-null key. -/
lemma groupSum_partition_aux (key : Resource → Option String) (ks : List String)
    (hnd : ks.Nodup) :
    ∀ rows : List Resource, (∀ r ∈ rows, ∀ v, key r = some v → v ∈ ks) →
    (ks.map (fun k => sumCost (rows.filter (fun r => key r == some k)))).sum
      = sumCost (rows.filter (fun r => (key r).isSome)) := by
  intro rows
  induction rows with
  | nil =>
    intro _
    simp only [List.filter_nil]
    rw [show sumCost [] = 0 from rfl]
    exact List.sum_eq_zero (by intro x hx; rcases List.mem_map.mp hx with ⟨k, _, rfl⟩; rfl)
  | cons r rs ih =>
    intro hcov
    have ihh := ih (fun x hx => hcov x (List.mem_cons_of_mem r hx))
    rcases hkey : key r with _ | v
    · have hfilters : ∀ k : String,
          (r :: rs).filter (fun x => key x == some k) = rs.filter (fun x => key x == some k) := by
        intro k; simp [List.filter_cons, hkey]
      have hfilter2 : (r :: rs).filter (fun x => (key x).isSome)
          = rs.filter (fun x => (key x).isSome) := by
        simp [List.filter_cons, hkey]
      simp only [hfilters, hfilter2]
      exact ihh
    · have hvks : v ∈ ks := hcov r (List.mem_cons_self r rs) v hkey
      have hsplit : (r :: rs).filter (fun x => (key x).isSome)
          = r :: rs.filter (fun x => (key x).isSome) := by
        simp [List.filter_cons, hkey]
      have hfv : sumCost ((r :: rs).filter (fun x => key x == some v))
          = sumCost (rs.filter (fun x => key x == some v)) + costOf r := by
        have hv_eq : (r :: rs).filter (fun x => key x == some v)
            = r :: rs.filter (fun x => key x == some v) := by
          simp [List.filter_cons, hkey]
        rw [hv_eq]
        show costOf r + sumCost (rs.filter (fun x => key x == some v)) = _
        ring
      have hne : ∀ k, k ≠ v → sumCost ((r :: rs).filter (fun x => key x == some k))
          = sumCost (rs.filter (fun x => key x == some k)) := by
        intro k hk
        have hvk : ((some v : Option String) == some k) = false := by
          simp [Ne.symm hk]
        simp [List.filter_cons, hkey, hvk]
      rw [hsplit]
      rw [show sumCost (r :: rs.filter (fun x => (key x).isSome))
            = costOf r + sumCost (rs.filter (fun x => (key x).isSome)) from rfl]
      rw [sum_map_eq_add v (costOf r) ks hnd hvks
            (fun k => sumCost ((r :: rs).filter (fun x => key x == some k)))
            (fun k => sumCost (rs.filter (fun x => key x == some k))) hfv hne, ihh]
      ring

/-- Claim C6, amended: for every dataset and grouping key, the group-by-sum
of MonthlyCostUSD summed over all produced groups equals the sum of
MonthlyCostUSD over the rows whose grouping-key value is non-null —
pandas `groupby` drops null-key rows, so partition completeness holds
exactly for the non-null-key part of the dataset (hence for the whole
dataset whenever no grouping-key value is null). -/
theorem C6_partition_amended (key : Resource → Option String) (rows : List Resource) :
    ((groupSum key rows).map Prod.snd).sum
      = sumCost (rows.filter (fun r => (key r).isSome)) := by
  have h := groupSum_partition_aux key (keysOf key rows) (List.nodup_dedup _) rows
    (fun r hr v hv => List.mem_dedup.mpr (List.mem_filterMap.mpr ⟨r, hr, hv⟩))
  rw [groupSum, List.map_map]
  exact h

/-- Claim C8, counterexample: `value_counts` does not include a category
for missing key values — on a dataset whose single row has a null
Tagged value the returned mapping is empty, although a null-key row is
present. -/
theorem C8_value_counts_counterexample :
    value_counts (fun r => r.Tagged) [rNullTag] = [] ∧
    (rNullTag.Tagged).isSome = false ∧
    ([rNullTag] : List Resource).length = 1 :=
  ⟨rfl, rfl, rfl⟩

/-- Claim C8, amended: groupCount (`value_counts`) returns a mapping whose
keys are exactly the distinct non-null key values present (rows with a
missing key value are dropped, per the pandas `dropna=True` default),
and each key is mapped to its row count. -/
theorem C8_value_counts_amended (key : Resource → Option String) (rows : List Resource) :
    (value_counts key rows).map Prod.fst = keysOf key rows ∧
    ∀ p ∈ value_counts key rows, p.2 = rows.countP (fun r => key r == some p.1) := by
  constructor
  · simp [value_counts, List.map_map, Function.comp_def]
  · intro p hp
    rcases List.mem_map.mp hp with ⟨v, hv, rfl⟩
    rfl

/-- Claim C8, witness: the amended theorem evaluated on a one-row dataset
tagged "Yes": the mapping keys are the distinct non-null values and the
entry ("Yes", 1) carries the row count of "Yes". -/
theorem C8_value_counts_amended_witness :
    (value_counts (fun r => r.Tagged) [rYes]).map Prod.fst = keysOf (fun r => r.Tagged) [rYes] ∧
    (("Yes", 1) : String × Nat).2
      = ([rYes] : List Resource).countP (fun r => r.Tagged == some (("Yes", 1) : String × Nat).1) :=
  ⟨(C8_value_counts_amended (fun r => r.Tagged) [rYes]).1,
   (C8_value_counts_amended (fun r => r.Tagged) [rYes]).2 ("Yes", 1) (by decide)⟩

/-- Claim C9, counterexample: the edited untagged subset used for the after
metrics can carry a stale TagScore.  Starting from a dataset whose one
untagged row has all five tag fields null (score 0), filling in the
Department cell in the remediation editor leaves the carried TagScore
column at 0 while the count of non-null tag fields is now 1 — the
script never recomputes TagScore after line 121. -/
theorem C9_stale_tagscore_counterexample :
    ((untagged_df [rBlankUntagged]).map (editDepartment "Engineering")).all
      (fun s => s.tagScore == tagScoreFn s.res) = false := by
  decide

/-- Claim C9, amended: TagScore is computed from the field values current
at scoring time (line 121) — every row of the scored table, and of the
untagged subset cloned from it, satisfies TagScore = count of non-null
tag fields as of that moment — and it is never independently mutated;
but it is not recomputed afterwards, so the edited subset can carry a
stale score.  The after metrics do not read TagScore: they are a
function of the underlying resource fields only. -/
theorem C9_tagscore_amended (rows : List Resource) (edited : List Scored) :
    (∀ s ∈ scoreAll rows, s.tagScore = tagScoreFn s.res) ∧
    (∀ s ∈ untagged_df rows, s.tagScore = tagScoreFn s.res) ∧
    metricsOfS edited = metricsOfR (edited.map (fun s => s.res)) := by
  refine ⟨?_, ?_, ?_⟩
  · intro s hs
    rcases List.mem_map.mp hs with ⟨r, _, rfl⟩
    rfl
  · intro s hs
    rcases List.mem_map.mp (List.mem_of_mem_filter hs) with ⟨r, _, rfl⟩
    rfl
  · simp [metricsOfS, metricsOfR, after_untagged_count, before_untagged_count,
      after_untagged_cost, before_untagged_cost, after_untagged_pct_cost,
      before_untagged_pct_cost, untaggedS, untaggedRows, sumCost, sumCostS,
      List.filter_map, List.map_map, Function.comp_def]

/-- Claim C9, witness: the amended theorem evaluated on the one-row dataset
with all tag fields null — its scored row satisfies the score equation —
and on a concrete edited subset for the metrics conjunct. -/
theorem C9_tagscore_amended_witness :
    ({ res := rBlankUntagged, tagScore := tagScoreFn rBlankUntagged } : Scored).tagScore
      = tagScoreFn ({ res := rBlankUntagged, tagScore := tagScoreFn rBlankUntagged } : Scored).res ∧
    metricsOfS [sPos] = metricsOfR ([sPos].map (fun s => s.res)) :=
  ⟨(C9_tagscore_amended [rBlankUntagged] []).1
      { res := rBlankUntagged, tagScore := tagScoreFn rBlankUntagged } (by decide),
   (C9_tagscore_amended [] [sPos]).2.2⟩

/-- Claim C10: every percentage operation guards with denominator > 0
rather than denominator != 0, so whenever the total MonthlyCostUSD of
the relevant dataset is negative the returned percentage is 0 rather
than the arithmetically computed negative percentage. -/
theorem C10_negative_total_guard (rows : List Resource) (edited : List Scored) :
    (sumCost rows < 0 → percent_untagged_cost rows = 0 ∧ before_untagged_pct_cost rows = 0) ∧
    (sumCostS edited < 0 → after_untagged_pct_cost edited = 0) := by
  refine ⟨fun h => ⟨?_, ?_⟩, fun h => ?_⟩
  · simp [percent_untagged_cost, not_lt.mpr h.le]
  · simp [before_untagged_pct_cost, not_lt.mpr h.le]
  · simp [after_untagged_pct_cost, not_lt.mpr h.le]

/-- Claim C10, witness: the guard theorem evaluated on concrete datasets
with total cost -10: all three cost percentages return 0. -/
theorem C10_negative_total_guard_witness :
    (percent_untagged_cost [rNeg] = 0 ∧ before_untagged_pct_cost [rNeg] = 0) ∧
    after_untagged_pct_cost [sNeg] = 0 :=
  ⟨(C10_negative_total_guard [rNeg] []).1 (by norm_num [sumCost, costOf, rNeg, blankResource]),
   (C10_negative_total_guard [] [sNeg]).2 (by norm_num [sumCostS, costOf, sNeg, rNeg, blankResource])⟩
